import Mathlib

/-!
Verification of the typed API access layer of the monica-mcp repository:
the name resolvers (`src/utils/resolvers.ts`), the merge-before-update
functions, the request/path builders, the contact-search filter and the
token scrubber (`src/client/MonicaClient.ts`).

JavaScript values are embedded as follows: a field of TS type
`T | undefined` becomes `Option T` (with `none` = `undefined`); a field of
type `T | null` becomes `Option T` (with `none` = `null`); a field of type
`T | null | undefined` becomes `Option (Option T)` (`none` = absent,
`some none` = explicit `null`).  JS string truthiness (`!s` is true for
`undefined`, `null` and `""`) is modelled explicitly.  The unbounded
`while (true)` pagination loops are modelled with an explicit fuel
parameter; running out of fuel is a distinguished outcome that never
coincides with a result the source code can produce.  Network traffic is
modelled by passing the backend as a function from page numbers to pages
and by returning the list of page numbers (resp. HTTP requests) the
operation issues.
-/

set_option autoImplicit false

namespace Monica

/-! ## String helpers mirroring the JavaScript primitives -/

/-- `l.dropWhile isWhitespace` from both ends: the model of `String.prototype.trim`. -/
def trimChars (l : List Char) : List Char :=
  ((l.dropWhile Char.isWhitespace).reverse.dropWhile Char.isWhitespace).reverse

/-- Model of JS `value.trim()`. -/
def jsTrim (s : String) : String :=
  ⟨trimChars s.data⟩

/-- Model of JS `value.toLowerCase()` (our inputs are ASCII). -/
def jsToLower (s : String) : String :=
  ⟨s.data.map Char.toLower⟩

/-- `normalizeLookupValue` from `src/utils/resolvers.ts`: `value.trim().toLowerCase()`. -/
def normalizeLookupValue (s : String) : String :=
  jsToLower (jsTrim s)

/-- Substring containment on character lists: `pat` occurs contiguously in `s`. -/
def listContainsSub (s pat : List Char) : Bool :=
  (List.range (s.length + 1)).any fun i => pat.isPrefixOf (s.drop i)

/-- Model of JS `s.includes(pat)` (substring containment). -/
def strContains (s pat : String) : Bool :=
  listContainsSub s.data pat.data

/-- JS truthiness of a `string | undefined | null` value: falsy iff absent or empty. -/
def jsTruthyStr : Option String → Bool
  | none => false
  | some s => s ≠ ""

/-- JS truthiness of a `number | undefined` value: falsy iff absent or zero. -/
def jsTruthyNat : Option Nat → Bool
  | none => false
  | some n => n ≠ 0

/-! ## Pagination model (`MonicaPaginationMeta` / `MonicaPaginatedResponse` in `src/types.ts`) -/

/-- The pagination metadata fields the access layer reads. -/
structure Meta where
  current_page : Nat
  last_page : Nat
  per_page : Nat
  total : Nat
deriving DecidableEq

/-- One page of a paginated listing. -/
structure Page (α : Type) where
  data : List α
  meta : Meta

/-! ## Resolver catalog entities (`src/types.ts`) -/

structure MonicaGender where
  id : Nat
  name : String
deriving DecidableEq

structure MonicaContactFieldType where
  id : Nat
  name : String
deriving DecidableEq

structure MonicaActivityType where
  id : Nat
  name : String
deriving DecidableEq

structure MonicaRelationshipType where
  id : Nat
  name : String
deriving DecidableEq

/-- Countries have an ISO-code string identifier (`MonicaCountry` in `src/types.ts`). -/
structure MonicaCountry where
  id : String
  name : String
  iso : String
deriving DecidableEq

/-! ## The generic paginated scan

Every resolver in `src/utils/resolvers.ts` runs the same `while (true)` loop:
fetch a page, return the first entry matching the predicate, otherwise stop
when `current_page >= last_page`, else fetch the next page.  The loop is
shared here; each resolver instantiates the match predicate. -/

/-- Outcome of a paginated scan.  `fuelOut` is the model artifact for running
out of fuel; the source's unbounded loop has no such outcome. -/
inductive ScanResult (α : Type) where
  | found (entry : α)
  | exhausted
  | fuelOut
deriving DecidableEq

/-- The shared scan loop.  Returns the outcome together with the list of page
numbers requested, in request order. -/
def scanLoop {α : Type} (fetch : Nat → Page α) (matchFn : α → Bool) :
    Nat → Nat → ScanResult α × List Nat
  | 0, _ => (.fuelOut, [])
  | fuel + 1, page =>
    let response := fetch page
    match response.data.find? matchFn with
    | some m => (.found m, [page])
    | none =>
      if response.meta.last_page ≤ response.meta.current_page then
        (.exhausted, [page])
      else
        let rest := scanLoop fetch matchFn fuel (page + 1)
        (rest.1, page :: rest.2)

/-- Result of a resolver: success, a raised error, or the fuel artifact. -/
inductive ResolveOutcome (ε α : Type) where
  | ok (value : α)
  | error (err : ε)
  | fuelOut
deriving DecidableEq

/-- Did the resolver raise? -/
def ResolveOutcome.isError {ε α : Type} : ResolveOutcome ε α → Bool
  | .error _ => true
  | _ => false

/-! ## The five resolvers (`src/utils/resolvers.ts`) -/

/-- `resolveGenderId`: identifier short-circuits; a missing (or empty) name is
"intentionally absent" (`undefined`); otherwise scan for an exact
case-insensitive name match starting at page 1. -/
def resolveGenderId (fetch : Nat → Page MonicaGender) (fuel : Nat)
    (genderId : Option Nat) (genderName : Option String) :
    ResolveOutcome String (Option Nat) × List Nat :=
  match genderId with
  | some gid => (.ok (some gid), [])
  | none =>
    if !(jsTruthyStr genderName) then
      (.ok none, [])
    else
      let raw := genderName.getD ""
      let target := normalizeLookupValue raw
      match scanLoop fetch (fun g => normalizeLookupValue g.name == target) fuel 1 with
      | (.found m, trace) => (.ok (some m.id), trace)
      | (.exhausted, trace) =>
        (.error (s!"No gender matched \"{raw}\". If Monica requires a gender, please provide either genderId or genderName with a valid gender (e.g., \"Male\", \"Female\", \"Rather not say\")."), trace)
      | (.fuelOut, trace) => (.fuelOut, trace)

/-- Options record of `resolveCountryId`. -/
structure CountryLookupOptions where
  countryId : Option String
  countryIso : Option String
  countryName : Option String

/-- The per-entry match of `resolveCountryId`: check the ISO code and/or the
name, whichever targets were supplied (a falsy target never matches). -/
def countryMatches (targetIso targetName : Option String) (c : MonicaCountry) : Bool :=
  (match targetIso with
   | some t => decide (t ≠ "") && (jsToLower c.iso == t)
   | none => false) ||
  (match targetName with
   | some t => decide (t ≠ "") && (jsToLower c.name == t)
   | none => false)

/-- `resolveCountryId`: a truthy caller-supplied identifier short-circuits;
with neither ISO code nor name the result is `null`; otherwise scan the
object-keyed country collection (converted to its value sequence) for the
first entry matching ISO code or name case-insensitively. -/
def resolveCountryId (fetch : Nat → Page (String × MonicaCountry)) (fuel : Nat)
    (options : CountryLookupOptions) :
    ResolveOutcome String (Option String) × List Nat :=
  if jsTruthyStr options.countryId then
    (.ok options.countryId, [])
  else
    let iso := options.countryIso.map jsTrim
    let name := options.countryName.map jsTrim
    if !(jsTruthyStr iso) && !(jsTruthyStr name) then
      (.ok none, [])
    else
      let targetIso := iso.map jsToLower
      let targetName := name.map jsToLower
      let valuesFetch : Nat → Page MonicaCountry := fun p =>
        { data := ((fetch p).data).map Prod.snd, meta := (fetch p).meta }
      match scanLoop valuesFetch (countryMatches targetIso targetName) fuel 1 with
      | (.found m, trace) => (.ok (some m.id), trace)
      | (.exhausted, trace) =>
        let rawIso := options.countryIso.getD ""
        let rawName := options.countryName.getD ""
        if jsTruthyStr iso then
          (.error (s!"No country matched ISO code \"{rawIso}\"."), trace)
        else
          (.error (s!"No country matched name \"{rawName}\"."), trace)
      | (.fuelOut, trace) => (.fuelOut, trace)

/-- `resolveContactFieldTypeId`: identifier short-circuits; a missing name is
a validation error raised before any network call; otherwise scan. -/
def resolveContactFieldTypeId (fetch : Nat → Page MonicaContactFieldType) (fuel : Nat)
    (contactFieldTypeId : Option Nat) (contactFieldTypeName : Option String) :
    ResolveOutcome String Nat × List Nat :=
  match contactFieldTypeId with
  | some i => (.ok i, [])
  | none =>
    if !(jsTruthyStr contactFieldTypeName) then
      (.error "Provide contactFieldTypeId or contactFieldTypeName.", [])
    else
      let raw := contactFieldTypeName.getD ""
      let target := normalizeLookupValue raw
      match scanLoop fetch (fun t => normalizeLookupValue t.name == target) fuel 1 with
      | (.found m, trace) => (.ok m.id, trace)
      | (.exhausted, trace) => (.error (s!"No contact field type matched \"{raw}\"."), trace)
      | (.fuelOut, trace) => (.fuelOut, trace)

/-- `resolveRelationshipTypeId`: identifier short-circuits; a missing name is
a validation error raised before any network call; otherwise scan. -/
def resolveRelationshipTypeId (fetch : Nat → Page MonicaRelationshipType) (fuel : Nat)
    (relationshipTypeId : Option Nat) (relationshipTypeName : Option String) :
    ResolveOutcome String Nat × List Nat :=
  match relationshipTypeId with
  | some i => (.ok i, [])
  | none =>
    if !(jsTruthyStr relationshipTypeName) then
      (.error "Provide relationshipTypeId or relationshipTypeName.", [])
    else
      let raw := relationshipTypeName.getD ""
      let target := normalizeLookupValue raw
      match scanLoop fetch (fun t => normalizeLookupValue t.name == target) fuel 1 with
      | (.found m, trace) => (.ok m.id, trace)
      | (.exhausted, trace) => (.error (s!"No relationship type matched \"{raw}\"."), trace)
      | (.fuelOut, trace) => (.fuelOut, trace)

/-! ## The activity-type resolver with near-match suggestions -/

/-- The near-match test of `resolveActivityTypeId`: substring containment in
either direction between the normalized name and the normalized target, or
(redundantly unless the name has surrounding whitespace) containment of the
target in the lower-cased raw name. -/
def isNearMatch (target : String) (t : MonicaActivityType) : Bool :=
  let normalizedName := normalizeLookupValue t.name
  strContains normalizedName target ||
  strContains target normalizedName ||
  strContains (jsToLower t.name) target

/-- Insertion into the suggestion accumulator: a JS `Map` keyed by the raw
name keeps insertion order and ignores re-insertions. -/
def insertSuggestion (acc : List String) (name : String) : List String :=
  if name ∈ acc then acc else acc ++ [name]

/-- One page's pass of the suggestion-collecting `for` loop. -/
def collectSuggestions (target : String) (entries : List MonicaActivityType)
    (acc : List String) : List String :=
  entries.foldl (fun acc t => if isNearMatch target t then insertSuggestion acc t.name else acc) acc

/-- The activity-type scan loop: like `scanLoop` but additionally threads the
suggestion accumulator across pages.  Returns outcome, final accumulator and
the requested page trace. -/
def activityScan (fetch : Nat → Page MonicaActivityType) (target : String) :
    Nat → Nat → List String → ScanResult MonicaActivityType × List String × List Nat
  | 0, _, acc => (.fuelOut, acc, [])
  | fuel + 1, page, acc =>
    let response := fetch page
    match response.data.find? (fun t => normalizeLookupValue t.name == target) with
    | some m => (.found m, acc, [page])
    | none =>
      let acc' := collectSuggestions target response.data acc
      if response.meta.last_page ≤ response.meta.current_page then
        (.exhausted, acc', [page])
      else
        let rest := activityScan fetch target fuel (page + 1) acc'
        (rest.1, rest.2.1, page :: rest.2.2)

/-- Errors of `resolveActivityTypeId`: the missing-input validation error and
the exhausted-scan resolution error, which carries the attempted target and
the (at most five) near-match suggestions embedded into its message. -/
inductive ActivityError where
  | validation (message : String)
  | resolution (target : String) (suggestions : List String)
deriving DecidableEq

/-- `resolveActivityTypeId`: identifier short-circuits; a missing name is a
validation error raised before any network call; otherwise scan pages,
collecting near-matches, and on exhaustion raise a resolution error whose
suggestions are the first five collected near-match names. -/
def resolveActivityTypeId (fetch : Nat → Page MonicaActivityType) (fuel : Nat)
    (activityTypeId : Option Nat) (activityTypeName : Option String) :
    ResolveOutcome ActivityError Nat × List Nat :=
  match activityTypeId with
  | some i => (.ok i, [])
  | none =>
    if !(jsTruthyStr activityTypeName) then
      (.error (.validation "Provide activityTypeId or activityTypeName."), [])
    else
      let raw := activityTypeName.getD ""
      let target := normalizeLookupValue raw
      match activityScan fetch target fuel 1 [] with
      | (.found m, _, trace) => (.ok m.id, trace)
      | (.exhausted, acc, trace) => (.error (.resolution raw (acc.take 5)), trace)
      | (.fuelOut, _, trace) => (.fuelOut, trace)

namespace Client

/-! ## Entity records (`src/types.ts`), restricted to the fields the
merge-before-update and search paths read. -/

/-- A contact; `isPartial` embeds the wire field `is_partial`. -/
structure MonicaContact where
  id : Nat
  isPartial : Bool
deriving DecidableEq

/-- A call record (`MonicaCall`): `called_at` and `content` are nullable. -/
structure MonicaCall where
  id : Nat
  called_at : Option String
  content : Option String
  contact : MonicaContact
deriving DecidableEq

/-- Reminder frequency kinds. -/
inductive FrequencyType where
  | one_time
  | day
  | week
  | month
  | year
deriving DecidableEq

/-- A reminder record (`MonicaReminder`). -/
structure MonicaReminder where
  id : Nat
  title : String
  description : Option String
  frequency_type : FrequencyType
  frequency_number : Option Int
  next_expected_date : Option String
  contact : MonicaContact
deriving DecidableEq

/-- A task record (`MonicaTask`); its `contact` field is optional. -/
structure MonicaTask where
  id : Nat
  title : String
  description : Option String
  completed : Bool
  completed_at : Option String
  contact : Option MonicaContact
deriving DecidableEq

/-- A note record (`MonicaNote`). -/
structure MonicaNote where
  id : Nat
  body : String
  is_favorited : Bool
  contact : MonicaContact
deriving DecidableEq

/-! ## Payload types (`src/client/MonicaClient.ts`) -/

/-- `CreateCallPayload`: `content` is `string | null` after merging
(`none` = `null`). -/
structure CreateCallPayload where
  contactId : Nat
  calledAt : String
  content : Option String
deriving DecidableEq

/-- `UpdateCallPayload`: `content?: string | null` is three-valued
(`none` = absent, `some none` = explicit `null`). -/
structure UpdateCallPayload where
  contactId : Option Nat
  calledAt : Option String
  content : Option (Option String)
deriving DecidableEq

structure CreateReminderPayload where
  title : String
  description : Option String
  nextExpectedDate : String
  frequencyType : FrequencyType
  frequencyNumber : Option Int
  contactId : Nat
deriving DecidableEq

structure UpdateReminderPayload where
  title : Option String
  description : Option (Option String)
  nextExpectedDate : Option String
  frequencyType : Option FrequencyType
  frequencyNumber : Option (Option Int)
  contactId : Option Nat
deriving DecidableEq

/-- The two task statuses; `open_` embeds the source string `'open'`. -/
inductive TaskStatus where
  | open_
  | completed
deriving DecidableEq

structure CreateTaskPayload where
  title : String
  description : Option String
  status : Option TaskStatus
  completedAt : Option String
  contactId : Nat
deriving DecidableEq

structure UpdateTaskPayload where
  title : Option String
  description : Option (Option String)
  status : Option TaskStatus
  completedAt : Option (Option String)
  contactId : Option Nat
deriving DecidableEq

structure UpdateNotePayload where
  contactId : Option Nat
  body : Option String
  isFavorited : Option Bool
deriving DecidableEq

/-! ## Merge-before-update (`mergeCallPayload`, `mergeReminderPayload`,
`mergeTaskPayload`, `buildNoteRequestBody` in `src/client/MonicaClient.ts`).
TS `a ?? b` is nullish coalescing: it takes `b` when `a` is `undefined` or
`null`; `patch.f === undefined ? existing.f : patch.f` instead tests
presence only. -/

/-- `mergeCallPayload`: the required `calledAt` comes from the patch or from
the first ten characters (`slice(0, 10)`) of a truthy `existing.called_at`;
`content` is merged by presence (`=== undefined`). -/
def mergeCallPayload (existing : MonicaCall) (patch : UpdateCallPayload) :
    Except String CreateCallPayload :=
  let calledAt : Option String :=
    match patch.calledAt with
    | some s => some s
    | none =>
      match existing.called_at with
      | some s => if s = "" then none else some (s.take 10)
      | none => none
  match calledAt with
  | none => .error "calledAt is required to update a call."
  | some ca =>
    if ca = "" then
      .error "calledAt is required to update a call."
    else
      .ok
        { contactId := patch.contactId.getD existing.contact.id
          calledAt := ca
          content :=
            match patch.content with
            | none => existing.content
            | some c => c }

/-- `mergeReminderPayload`: the required `nextExpectedDate` comes from the
patch or from `existing.next_expected_date.slice(0, 10)`; `description` is
merged by presence, `frequencyNumber` by nullish coalescing. -/
def mergeReminderPayload (existing : MonicaReminder) (patch : UpdateReminderPayload) :
    Except String CreateReminderPayload :=
  let nextExpectedDate : Option String :=
    match patch.nextExpectedDate with
    | some s => some s
    | none =>
      match existing.next_expected_date with
      | some s => if s = "" then none else some (s.take 10)
      | none => none
  match nextExpectedDate with
  | none => .error "nextExpectedDate is required to update a reminder."
  | some d =>
    if d = "" then
      .error "nextExpectedDate is required to update a reminder."
    else
      .ok
        { title := patch.title.getD existing.title
          description :=
            match patch.description with
            | none => existing.description
            | some dd => dd
          nextExpectedDate := d
          frequencyType := patch.frequencyType.getD existing.frequency_type
          frequencyNumber :=
            match patch.frequencyNumber with
            | some (some n) => some n
            | _ => existing.frequency_number
          contactId := patch.contactId.getD existing.contact.id }

/-- `mergeTaskPayload`: every field is merged with nullish coalescing (`??`),
so an explicit `null` in the patch falls through to the existing value; a
falsy merged `contactId` (absent or zero) is a validation error. -/
def mergeTaskPayload (existing : MonicaTask) (patch : UpdateTaskPayload) :
    Except String CreateTaskPayload :=
  let contactId : Option Nat :=
    match patch.contactId with
    | some c => some c
    | none => existing.contact.map MonicaContact.id
  match contactId with
  | none => .error "contactId is required to update a task."
  | some cid =>
    if cid = 0 then
      .error "contactId is required to update a task."
    else
      .ok
        { title := patch.title.getD existing.title
          description :=
            match patch.description with
            | some (some s) => some s
            | _ => existing.description
          status := some (patch.status.getD (if existing.completed then .completed else .open_))
          completedAt :=
            match patch.completedAt with
            | some (some s) => some s
            | _ => existing.completed_at
          contactId := cid }

/-! ## Wire request bodies -/

/-- The call write body built by `buildCallRequestBody`. -/
structure CallRequestBody where
  contact_id : Nat
  called_at : String
  content : Option String
deriving DecidableEq

def buildCallRequestBody (payload : CreateCallPayload) : CallRequestBody :=
  { contact_id := payload.contactId
    called_at := payload.calledAt
    content := payload.content }

/-- The reminder write body built by `buildReminderRequestBody`. -/
structure ReminderRequestBody where
  title : String
  description : Option String
  next_expected_date : String
  frequency_type : FrequencyType
  frequency_number : Option Int
  contact_id : Nat
deriving DecidableEq

def buildReminderRequestBody (payload : CreateReminderPayload) : ReminderRequestBody :=
  { title := payload.title
    description := payload.description
    next_expected_date := payload.nextExpectedDate
    frequency_type := payload.frequencyType
    frequency_number := payload.frequencyNumber
    contact_id := payload.contactId }

/-- The task write body built by `buildTaskRequestBody`; `completed` is the
`0`/`1` encoding of `status === 'completed'`. -/
structure TaskRequestBody where
  title : String
  description : Option String
  completed : Nat
  completed_at : Option String
  contact_id : Nat
deriving DecidableEq

def buildTaskRequestBody (payload : CreateTaskPayload) : TaskRequestBody :=
  { title := payload.title
    description := payload.description
    completed := if payload.status = some .completed then 1 else 0
    completed_at := payload.completedAt
    contact_id := payload.contactId }

/-- The note write body built by `buildNoteRequestBody`. -/
structure NoteRequestBody where
  contact_id : Nat
  body : String
  is_favorited : Nat
deriving DecidableEq

/-- `buildNoteRequestBody` merges and builds in one step in the source; a
falsy merged `contactId` is a validation error. -/
def buildNoteRequestBody (existing : MonicaNote) (patch : UpdateNotePayload) :
    Except String NoteRequestBody :=
  let contactId := patch.contactId.getD existing.contact.id
  if contactId = 0 then
    .error "contactId is required to update a note."
  else
    .ok
      { contact_id := contactId
        body := patch.body.getD existing.body
        is_favorited := if patch.isFavorited.getD existing.is_favorited then 1 else 0 }

/-! ## Update operations: the read-merge-write sequencing.  The fetched
existing record is an input (the GET result); the returned list is the
sequence of HTTP requests the operation issues. -/

/-- An HTTP request: method and path relative to the API root. -/
structure HttpRequest where
  method : String
  path : String
deriving DecidableEq

/-- `updateCall`: GET the record, merge, and only on a successful merge PUT
the rebuilt full body. -/
def updateCall (callId : Nat) (existing : MonicaCall) (patch : UpdateCallPayload) :
    Except String CallRequestBody × List HttpRequest :=
  match mergeCallPayload existing patch with
  | .error e => (.error e, [⟨"GET", s!"calls/{callId}"⟩])
  | .ok merged =>
    (.ok (buildCallRequestBody merged),
      [⟨"GET", s!"calls/{callId}"⟩, ⟨"PUT", s!"calls/{callId}"⟩])

/-- `updateReminder`: GET, merge, PUT only on merge success. -/
def updateReminder (reminderId : Nat) (existing : MonicaReminder)
    (patch : UpdateReminderPayload) :
    Except String ReminderRequestBody × List HttpRequest :=
  match mergeReminderPayload existing patch with
  | .error e => (.error e, [⟨"GET", s!"reminders/{reminderId}"⟩])
  | .ok merged =>
    (.ok (buildReminderRequestBody merged),
      [⟨"GET", s!"reminders/{reminderId}"⟩, ⟨"PUT", s!"reminders/{reminderId}"⟩])

/-- `updateTask`: GET, merge, PUT only on merge success. -/
def updateTask (taskId : Nat) (existing : MonicaTask) (patch : UpdateTaskPayload) :
    Except String TaskRequestBody × List HttpRequest :=
  match mergeTaskPayload existing patch with
  | .error e => (.error e, [⟨"GET", s!"tasks/{taskId}"⟩])
  | .ok merged =>
    (.ok (buildTaskRequestBody merged),
      [⟨"GET", s!"tasks/{taskId}"⟩, ⟨"PUT", s!"tasks/{taskId}"⟩])

/-- `updateNote`: GET, merge-and-build, PUT only on success. -/
def updateNote (noteId : Nat) (existing : MonicaNote) (patch : UpdateNotePayload) :
    Except String NoteRequestBody × List HttpRequest :=
  match buildNoteRequestBody existing patch with
  | .error e => (.error e, [⟨"GET", s!"notes/{noteId}"⟩])
  | .ok body =>
    (.ok body, [⟨"GET", s!"notes/{noteId}"⟩, ⟨"PUT", s!"notes/{noteId}"⟩])

/-! ## Task request paths (`createTask`, `getTask`, `updateTask`,
`deleteTask`, `listTasks` in `src/client/MonicaClient.ts`) -/

/-- `createTask` POSTs to the singular path `task/`. -/
def createTaskRequest (payload : CreateTaskPayload) : HttpRequest × TaskRequestBody :=
  (⟨"POST", "task/"⟩, buildTaskRequestBody payload)

def getTaskRequest (taskId : Nat) : HttpRequest :=
  ⟨"GET", s!"tasks/{taskId}"⟩

def deleteTaskRequest (taskId : Nat) : HttpRequest :=
  ⟨"DELETE", s!"tasks/{taskId}"⟩

/-- `listTasks` routes to the contact-scoped path when a truthy `contactId`
was supplied, else to the global `tasks` path. -/
def listTasksRequestPath (contactId : Option Nat) : String :=
  if jsTruthyNat contactId then s!"contacts/{contactId.getD 0}/tasks" else "tasks"

/-! ## Contact search (`searchContacts` in `src/client/MonicaClient.ts`) -/

structure SearchContactsOptions where
  query : String
  limit : Option Nat
  page : Option Nat
  includePartial : Option Bool

/-- A paginated response as the caller receives it. -/
structure Paginated (α : Type) where
  data : List α
  meta : Meta

/-- `searchContacts` post-processing: when `includePartial === false` the
partial contacts are filtered out of `data`; everything else (in particular
`meta`) is returned as the backend reported it. -/
def searchContacts (options : SearchContactsOptions)
    (response : Paginated MonicaContact) : Paginated MonicaContact :=
  if options.includePartial = some false then
    { response with data := response.data.filter (fun c => !c.isPartial) }
  else
    response

/-! ## Token redaction (`scrubSecrets` in `src/client/MonicaClient.ts`).
Parsed JSON response bodies are modelled by `JVal`; on a failing response,
`request` logs `scrubSecrets(data)` at warning level before raising. -/

/-- A parsed JSON value.  Objects are entry lists in key order. -/
inductive JVal where
  | null
  | bool (b : Bool)
  | num (n : Int)
  | str (s : String)
  | arr (elems : List JVal)
  | obj (entries : List (String × JVal))

/-- The redaction test: `key.toLowerCase().includes('token')`. -/
def isTokenKey (key : String) : Bool :=
  strContains (jsToLower key) "token"

/-- The redaction marker `'[redacted]'`. -/
def redactedMarker : JVal := .str "[redacted]"

mutual

/-- `scrubSecrets`: primitives pass through, arrays recurse elementwise, and
in objects a token-named key's value is replaced by the marker (without
recursing into it) while every other value is scrubbed recursively. -/
def scrubSecrets : JVal → JVal
  | .null => .null
  | .bool b => .bool b
  | .num n => .num n
  | .str s => .str s
  | .arr elems => .arr (scrubList elems)
  | .obj entries => .obj (scrubEntries entries)

/-- Elementwise scrub of an array (`value.map((entry) => scrubSecrets(entry))`). -/
def scrubList : List JVal → List JVal
  | [] => []
  | v :: vs => scrubSecrets v :: scrubList vs

/-- Entrywise scrub of an object (`for (const [key, v] of Object.entries(record))`). -/
def scrubEntries : List (String × JVal) → List (String × JVal)
  | [] => []
  | (k, v) :: es =>
    (if isTokenKey k then (k, redactedMarker) else (k, scrubSecrets v)) :: scrubEntries es

end

mutual

/-- Erase every token-keyed value to `null`, keeping all structure: two
inputs are "equal except for token-keyed values" iff their erasures agree. -/
def eraseTokens : JVal → JVal
  | .null => .null
  | .bool b => .bool b
  | .num n => .num n
  | .str s => .str s
  | .arr elems => .arr (eraseList elems)
  | .obj entries => .obj (eraseEntries entries)

def eraseList : List JVal → List JVal
  | [] => []
  | v :: vs => eraseTokens v :: eraseList vs

def eraseEntries : List (String × JVal) → List (String × JVal)
  | [] => []
  | (k, v) :: es =>
    (if isTokenKey k then (k, .null) else (k, eraseTokens v)) :: eraseEntries es

end

/-- Is this value the literal redaction marker? -/
def isRedactedStr : JVal → Bool
  | .str s => s = "[redacted]"
  | _ => false

mutual

/-- Recursively check that, at every nesting depth, every token-named key
maps to the redaction marker. -/
def allTokensRedacted : JVal → Bool
  | .null => true
  | .bool _ => true
  | .num _ => true
  | .str _ => true
  | .arr elems => allTokensRedactedList elems
  | .obj entries => allTokensRedactedEntries entries

def allTokensRedactedList : List JVal → Bool
  | [] => true
  | v :: vs => allTokensRedacted v && allTokensRedactedList vs

def allTokensRedactedEntries : List (String × JVal) → Bool
  | [] => true
  | (k, v) :: es =>
    (if isTokenKey k then isRedactedStr v else allTokensRedacted v) &&
      allTokensRedactedEntries es

end

end Client

/-! ## Concrete backends used by the witnesses -/

/-- A two-page gender catalog. -/
def genderFetch : Nat → Page MonicaGender
  | 1 => { data := [⟨1, "Male"⟩, ⟨2, "Female"⟩], meta := ⟨1, 2, 100, 3⟩ }
  | 2 => { data := [⟨3, "Rather not say"⟩], meta := ⟨2, 2, 100, 3⟩ }
  | _ => { data := [], meta := ⟨99, 99, 100, 0⟩ }

/-- A one-page activity-type catalog holding `Meeting` and `Meal`. -/
def meetCatalogFetch : Nat → Page MonicaActivityType
  | _ => { data := [⟨10, "Meeting"⟩, ⟨11, "Meal"⟩], meta := ⟨1, 1, 100, 2⟩ }

/-- A one-page country catalog keyed by ISO code, storing lower-case codes. -/
def countryFetch : Nat → Page (String × MonicaCountry)
  | _ => { data := [("de", ⟨"D1", "Germany", "de"⟩), ("fr", ⟨"F1", "France", "fr"⟩)],
           meta := ⟨1, 1, 100, 2⟩ }

/-- A one-page contact-field-type catalog. -/
def cftFetch : Nat → Page MonicaContactFieldType
  | _ => { data := [⟨20, "Email"⟩, ⟨21, "Phone"⟩], meta := ⟨1, 1, 100, 2⟩ }

/-- A one-page relationship-type catalog. -/
def rtFetch : Nat → Page MonicaRelationshipType
  | _ => { data := [⟨30, "Friend"⟩], meta := ⟨1, 1, 100, 1⟩ }

end Monica

namespace Monica

/-! ## Pagination lemmas about the shared scan loop -/

/-- The pages a scan requests form the consecutive run starting at its first
page: the trace is `List.range'` of its own length. -/
theorem scanLoop_trace_eq_range' {α : Type} (fetch : Nat → Page α) (matchFn : α → Bool) :
    ∀ (fuel page : Nat),
      (scanLoop fetch matchFn fuel page).2 =
        List.range' page (scanLoop fetch matchFn fuel page).2.length
  | 0, _ => rfl
  | fuel + 1, page => by
    have ih := scanLoop_trace_eq_range' fetch matchFn fuel (page + 1)
    simp only [scanLoop]
    cases h : (fetch page).data.find? matchFn with
    | some m => simp [List.range']
    | none =>
      by_cases hstop : (fetch page).meta.last_page ≤ (fetch page).meta.current_page
      · simp [hstop, List.range']
      · simp only [hstop, if_false]
        simp [List.range', ih.symm]

/-- A page with a match ends the scan at once: the matching entry is
returned and no further page is requested. -/
theorem scanLoop_found {α : Type} (fetch : Nat → Page α) (matchFn : α → Bool)
    (fuel page : Nat) (m : α) (h : (fetch page).data.find? matchFn = some m) :
    scanLoop fetch matchFn (fuel + 1) page = (.found m, [page]) := by
  simp [scanLoop, h]

/-- A match-free page reporting `current_page >= last_page` ends the scan:
no further page is requested. -/
theorem scanLoop_halt {α : Type} (fetch : Nat → Page α) (matchFn : α → Bool)
    (fuel page : Nat)
    (hNo : (fetch page).data.find? matchFn = none)
    (hLast : (fetch page).meta.last_page ≤ (fetch page).meta.current_page) :
    scanLoop fetch matchFn (fuel + 1) page = (.exhausted, [page]) := by
  simp [scanLoop, hNo, hLast]

/-- The activity-type scan requests the consecutive page run from its first
page, like the shared loop. -/
theorem activityScan_trace_eq_range' (fetch : Nat → Page MonicaActivityType) (target : String) :
    ∀ (fuel page : Nat) (acc : List String),
      (activityScan fetch target fuel page acc).2.2 =
        List.range' page (activityScan fetch target fuel page acc).2.2.length
  | 0, _, _ => rfl
  | fuel + 1, page, acc => by
    have ih := activityScan_trace_eq_range' fetch target fuel (page + 1)
      (collectSuggestions target (fetch page).data acc)
    simp only [activityScan]
    cases h : (fetch page).data.find? (fun t => normalizeLookupValue t.name == target) with
    | some m => simp [List.range']
    | none =>
      by_cases hstop : (fetch page).meta.last_page ≤ (fetch page).meta.current_page
      · simp [hstop, List.range']
      · simp only [hstop, if_false]
        simp [List.range', ih.symm]

/-- A page with an exact match ends the activity scan at once. -/
theorem activityScan_found (fetch : Nat → Page MonicaActivityType) (target : String)
    (fuel page : Nat) (acc : List String) (m : MonicaActivityType)
    (h : (fetch page).data.find? (fun t => normalizeLookupValue t.name == target) = some m) :
    activityScan fetch target (fuel + 1) page acc = (.found m, acc, [page]) := by
  simp [activityScan, h]

/-- A match-free final page ends the activity scan. -/
theorem activityScan_halt (fetch : Nat → Page MonicaActivityType) (target : String)
    (fuel page : Nat) (acc : List String)
    (hNo : (fetch page).data.find? (fun t => normalizeLookupValue t.name == target) = none)
    (hLast : (fetch page).meta.last_page ≤ (fetch page).meta.current_page) :
    activityScan fetch target (fuel + 1) page acc =
      (.exhausted, collectSuggestions target (fetch page).data acc, [page]) := by
  simp [activityScan, hNo, hLast]

/-- Every resolver's page trace is the consecutive run starting at page 1. -/
theorem resolveGenderId_trace (fetch : Nat → Page MonicaGender) (fuel : Nat)
    (name : String) (h : name ≠ "") :
    ∃ k, (resolveGenderId fetch fuel none (some name)).2 = List.range' 1 k := by
  have htr := scanLoop_trace_eq_range' fetch
    (fun g => normalizeLookupValue g.name == normalizeLookupValue name) fuel 1
  rcases hscan : scanLoop fetch
    (fun g => normalizeLookupValue g.name == normalizeLookupValue name) fuel 1 with ⟨res, trace⟩
  rw [hscan] at htr
  refine ⟨trace.length, ?_⟩
  cases res <;> simp [resolveGenderId, jsTruthyStr, h, hscan] <;> simpa using htr

theorem resolveCountryId_trace (fetch : Nat → Page (String × MonicaCountry)) (fuel : Nat)
    (iso : String) (h : jsTrim iso ≠ "") :
    ∃ k, (resolveCountryId fetch fuel ⟨none, some iso, none⟩).2 = List.range' 1 k := by
  have htr := scanLoop_trace_eq_range'
    (fun p => { data := ((fetch p).data).map Prod.snd, meta := (fetch p).meta })
    (countryMatches (some (jsToLower (jsTrim iso))) none) fuel 1
  rcases hscan : scanLoop
    (fun p => { data := ((fetch p).data).map Prod.snd, meta := (fetch p).meta })
    (countryMatches (some (jsToLower (jsTrim iso))) none) fuel 1 with ⟨res, trace⟩
  rw [hscan] at htr
  refine ⟨trace.length, ?_⟩
  cases res <;> simp [resolveCountryId, jsTruthyStr, h, hscan] <;> simpa using htr

theorem resolveContactFieldTypeId_trace (fetch : Nat → Page MonicaContactFieldType)
    (fuel : Nat) (name : String) (h : name ≠ "") :
    ∃ k, (resolveContactFieldTypeId fetch fuel none (some name)).2 = List.range' 1 k := by
  have htr := scanLoop_trace_eq_range' fetch
    (fun t => normalizeLookupValue t.name == normalizeLookupValue name) fuel 1
  rcases hscan : scanLoop fetch
    (fun t => normalizeLookupValue t.name == normalizeLookupValue name) fuel 1 with ⟨res, trace⟩
  rw [hscan] at htr
  refine ⟨trace.length, ?_⟩
  cases res <;> simp [resolveContactFieldTypeId, jsTruthyStr, h, hscan] <;> simpa using htr

theorem resolveRelationshipTypeId_trace (fetch : Nat → Page MonicaRelationshipType)
    (fuel : Nat) (name : String) (h : name ≠ "") :
    ∃ k, (resolveRelationshipTypeId fetch fuel none (some name)).2 = List.range' 1 k := by
  have htr := scanLoop_trace_eq_range' fetch
    (fun t => normalizeLookupValue t.name == normalizeLookupValue name) fuel 1
  rcases hscan : scanLoop fetch
    (fun t => normalizeLookupValue t.name == normalizeLookupValue name) fuel 1 with ⟨res, trace⟩
  rw [hscan] at htr
  refine ⟨trace.length, ?_⟩
  cases res <;> simp [resolveRelationshipTypeId, jsTruthyStr, h, hscan] <;> simpa using htr

theorem resolveActivityTypeId_trace (fetch : Nat → Page MonicaActivityType)
    (fuel : Nat) (name : String) (h : name ≠ "") :
    ∃ k, (resolveActivityTypeId fetch fuel none (some name)).2 = List.range' 1 k := by
  have htr := activityScan_trace_eq_range' fetch (normalizeLookupValue name) fuel 1 []
  rcases hscan : activityScan fetch (normalizeLookupValue name) fuel 1 []
    with ⟨res, acc, trace⟩
  rw [hscan] at htr
  refine ⟨trace.length, ?_⟩
  cases res <;> simp [resolveActivityTypeId, jsTruthyStr, h, hscan] <;> simpa using htr

/-- C3: every name-resolver scan (gender, country, contact-field type,
activity type, relationship type) starts at page 1 and requests pages in
strictly increasing consecutive order (the trace is `List.range' 1 k`); on
each page the entries are scanned in order (`List.find?`) and the first
exact case-insensitive match ends the scan immediately with that entry and
no further page request; and a match-free page reporting
`current_page >= last_page` ends the scan with no further page request. -/
theorem resolver_scan_forward_and_halting :
    (∀ (α : Type) (fetch : Nat → Page α) (matchFn : α → Bool) (fuel page : Nat),
      (scanLoop fetch matchFn fuel page).2 =
        List.range' page (scanLoop fetch matchFn fuel page).2.length) ∧
    (∀ (α : Type) (fetch : Nat → Page α) (matchFn : α → Bool) (fuel page : Nat) (m : α),
      (fetch page).data.find? matchFn = some m →
        scanLoop fetch matchFn (fuel + 1) page = (.found m, [page])) ∧
    (∀ (α : Type) (fetch : Nat → Page α) (matchFn : α → Bool) (fuel page : Nat),
      (fetch page).data.find? matchFn = none →
      (fetch page).meta.last_page ≤ (fetch page).meta.current_page →
        scanLoop fetch matchFn (fuel + 1) page = (.exhausted, [page])) ∧
    (∀ (fetch : Nat → Page MonicaActivityType) (target : String) (fuel page : Nat)
        (acc : List String) (m : MonicaActivityType),
      (fetch page).data.find? (fun t => normalizeLookupValue t.name == target) = some m →
        activityScan fetch target (fuel + 1) page acc = (.found m, acc, [page])) ∧
    (∀ (fetch : Nat → Page MonicaActivityType) (target : String) (fuel page : Nat)
        (acc : List String),
      (fetch page).data.find? (fun t => normalizeLookupValue t.name == target) = none →
      (fetch page).meta.last_page ≤ (fetch page).meta.current_page →
        activityScan fetch target (fuel + 1) page acc =
          (.exhausted, collectSuggestions target (fetch page).data acc, [page])) ∧
    (∀ (fetch : Nat → Page MonicaGender) (fuel : Nat) (name : String), name ≠ "" →
      ∃ k, (resolveGenderId fetch fuel none (some name)).2 = List.range' 1 k) ∧
    (∀ (fetch : Nat → Page (String × MonicaCountry)) (fuel : Nat) (iso : String),
      jsTrim iso ≠ "" →
      ∃ k, (resolveCountryId fetch fuel ⟨none, some iso, none⟩).2 = List.range' 1 k) ∧
    (∀ (fetch : Nat → Page MonicaContactFieldType) (fuel : Nat) (name : String), name ≠ "" →
      ∃ k, (resolveContactFieldTypeId fetch fuel none (some name)).2 = List.range' 1 k) ∧
    (∀ (fetch : Nat → Page MonicaActivityType) (fuel : Nat) (name : String), name ≠ "" →
      ∃ k, (resolveActivityTypeId fetch fuel none (some name)).2 = List.range' 1 k) ∧
    (∀ (fetch : Nat → Page MonicaRelationshipType) (fuel : Nat) (name : String), name ≠ "" →
      ∃ k, (resolveRelationshipTypeId fetch fuel none (some name)).2 = List.range' 1 k) :=
  ⟨fun _ => scanLoop_trace_eq_range',
   fun _ => scanLoop_found,
   fun _ => scanLoop_halt,
   activityScan_found,
   activityScan_halt,
   resolveGenderId_trace,
   resolveCountryId_trace,
   resolveContactFieldTypeId_trace,
   resolveActivityTypeId_trace,
   resolveRelationshipTypeId_trace⟩

/-- Witness for C3 at concrete catalogs: an immediate hit on a matching
page, halting on a final page, and consecutive page traces for all five
resolvers. -/
theorem resolver_scan_forward_and_halting_witness :
    scanLoop genderFetch (fun g => normalizeLookupValue g.name == "female") 3 1 =
      (.found ⟨2, "Female"⟩, [1]) ∧
    scanLoop genderFetch (fun g => normalizeLookupValue g.name == "nobody") 3 2 =
      (.exhausted, [2]) ∧
    activityScan meetCatalogFetch "meeting" 3 1 [] = (.found ⟨10, "Meeting"⟩, [], [1]) ∧
    activityScan meetCatalogFetch "zzz" 3 1 [] = (.exhausted, [], [1]) ∧
    (∃ k, (resolveGenderId genderFetch 5 none (some "Rather NOT say")).2 = List.range' 1 k) ∧
    (∃ k, (resolveCountryId countryFetch 5 ⟨none, some "FR", none⟩).2 = List.range' 1 k) ∧
    (∃ k, (resolveContactFieldTypeId cftFetch 5 none (some "Email")).2 = List.range' 1 k) ∧
    (∃ k, (resolveActivityTypeId meetCatalogFetch 5 none (some "Meeting")).2 = List.range' 1 k) ∧
    (∃ k, (resolveRelationshipTypeId rtFetch 5 none (some "friend")).2 = List.range' 1 k) :=
  ⟨resolver_scan_forward_and_halting.2.1 _ genderFetch _ 2 1 _ (by decide),
   resolver_scan_forward_and_halting.2.2.1 _ genderFetch _ 2 2 (by decide) (by decide),
   resolver_scan_forward_and_halting.2.2.2.1 meetCatalogFetch "meeting" 2 1 [] _ (by decide),
   resolver_scan_forward_and_halting.2.2.2.2.1 meetCatalogFetch "zzz" 2 1 [] (by decide)
     (by decide),
   resolver_scan_forward_and_halting.2.2.2.2.2.1 genderFetch 5 "Rather NOT say" (by decide),
   resolver_scan_forward_and_halting.2.2.2.2.2.2.1 countryFetch 5 "FR" (by decide),
   resolver_scan_forward_and_halting.2.2.2.2.2.2.2.1 cftFetch 5 "Email" (by decide),
   resolver_scan_forward_and_halting.2.2.2.2.2.2.2.2.1 meetCatalogFetch 5 "Meeting" (by decide),
   resolver_scan_forward_and_halting.2.2.2.2.2.2.2.2.2 rtFetch 5 "friend" (by decide)⟩

end Monica

namespace Monica.Client

/-- A date field absent from the patch and absent or empty on the existing
record makes `mergeCallPayload` fail. -/
theorem mergeCallPayload_missing_date (existing : MonicaCall) (patch : UpdateCallPayload)
    (h1 : patch.calledAt = none)
    (h2 : existing.called_at = none ∨ existing.called_at = some "") :
    mergeCallPayload existing patch = .error "calledAt is required to update a call." := by
  rcases h2 with h2 | h2 <;> simp [mergeCallPayload, h1, h2]

/-- The reminder analogue of `mergeCallPayload_missing_date`. -/
theorem mergeReminderPayload_missing_date (existing : MonicaReminder)
    (patch : UpdateReminderPayload)
    (h1 : patch.nextExpectedDate = none)
    (h2 : existing.next_expected_date = none ∨ existing.next_expected_date = some "") :
    mergeReminderPayload existing patch =
      .error "nextExpectedDate is required to update a reminder." := by
  rcases h2 with h2 | h2 <;> simp [mergeReminderPayload, h1, h2]

/-- C4: when the required date field (`calledAt` for calls,
`nextExpectedDate` for reminders) is absent from the patch and absent or
empty on the fetched existing record, the update raises the validation
error and issues no PUT request — only the initial GET was sent. -/
theorem update_missing_date_fails_before_write :
    (∀ (callId : Nat) (existing : MonicaCall) (patch : UpdateCallPayload),
      patch.calledAt = none →
      (existing.called_at = none ∨ existing.called_at = some "") →
        updateCall callId existing patch =
          (.error "calledAt is required to update a call.", [⟨"GET", s!"calls/{callId}"⟩]) ∧
        ∀ r ∈ (updateCall callId existing patch).2, r.method ≠ "PUT") ∧
    (∀ (reminderId : Nat) (existing : MonicaReminder) (patch : UpdateReminderPayload),
      patch.nextExpectedDate = none →
      (existing.next_expected_date = none ∨ existing.next_expected_date = some "") →
        updateReminder reminderId existing patch =
          (.error "nextExpectedDate is required to update a reminder.",
            [⟨"GET", s!"reminders/{reminderId}"⟩]) ∧
        ∀ r ∈ (updateReminder reminderId existing patch).2, r.method ≠ "PUT") := by
  constructor
  · intro callId existing patch h1 h2
    have hm := mergeCallPayload_missing_date existing patch h1 h2
    constructor
    · simp [updateCall, hm]
    · intro r hr
      simp [updateCall, hm] at hr
      simp [hr]
  · intro reminderId existing patch h1 h2
    have hm := mergeReminderPayload_missing_date existing patch h1 h2
    constructor
    · simp [updateReminder, hm]
    · intro r hr
      simp [updateReminder, hm] at hr
      simp [hr]

/-- Witness for C4: a call whose record has a `null` date and a reminder
whose record has an empty date, each updated with a date-free patch. -/
theorem update_missing_date_fails_before_write_witness :
    (updateCall 9 ⟨9, none, some "hi", ⟨7, false⟩⟩ ⟨none, none, none⟩ =
      (.error "calledAt is required to update a call.", [⟨"GET", "calls/9"⟩]) ∧
      ∀ r ∈ (updateCall 9 ⟨9, none, some "hi", ⟨7, false⟩⟩ ⟨none, none, none⟩).2,
        r.method ≠ "PUT") ∧
    (updateReminder 4 ⟨4, "T", none, .week, none, some "", ⟨7, false⟩⟩
        ⟨none, none, none, none, none, none⟩ =
      (.error "nextExpectedDate is required to update a reminder.",
        [⟨"GET", "reminders/4"⟩]) ∧
      ∀ r ∈ (updateReminder 4 ⟨4, "T", none, .week, none, some "", ⟨7, false⟩⟩
          ⟨none, none, none, none, none, none⟩).2,
        r.method ≠ "PUT") :=
  ⟨update_missing_date_fails_before_write.1 9 ⟨9, none, some "hi", ⟨7, false⟩⟩
      ⟨none, none, none⟩ rfl (Or.inl rfl),
   update_missing_date_fails_before_write.2 4 ⟨4, "T", none, .week, none, some "", ⟨7, false⟩⟩
      ⟨none, none, none, none, none, none⟩ rfl (Or.inr rfl)⟩

/-- C1 counterexample: the claim's presence-based null-clearing does not
hold for the task kind.  Updating a task whose record has description `"B"`
with the patch `{description: null}` (an explicitly present `null`) carries
`"B"` forward instead of clearing it, because `mergeTaskPayload` uses
nullish coalescing (`??`), which treats `null` like absent. -/
theorem mergeTaskPayload_null_does_not_clear :
    mergeTaskPayload ⟨1, "A", some "B", false, none, some ⟨7, false⟩⟩
        ⟨none, some none, none, none, none⟩ =
      .ok ⟨"A", some "B", some .open_, none, 7⟩ ∧
    (⟨none, some none, none, none, none⟩ : UpdateTaskPayload).description = some none ∧
    some "B" ≠ (none : Option String) :=
  ⟨rfl, rfl, by decide⟩

/-- C1 (amended): presence-based merging — absent leaves the field, explicit
`null` clears it — holds for the call's `content` and the reminder's
`description`, which are merged with `=== undefined`.  It does not hold for
the task's `description` and `completedAt` nor for the reminder's
`frequencyNumber`: these use nullish coalescing, so an explicitly `null`
patch field carries the existing value forward exactly like an absent one.
The spec's call scenario stands: patch `{content: null}` over existing
`{calledAt: "2024-01-01", content: "hi"}` produces the merged write body
`{calledAt: "2024-01-01", content: null}`. -/
theorem merge_null_vs_absent :
    (∀ (existing : MonicaCall) (patch : UpdateCallPayload) (p : CreateCallPayload),
      mergeCallPayload existing patch = .ok p →
        (patch.content = none → p.content = existing.content) ∧
        (∀ c, patch.content = some c → p.content = c)) ∧
    (∀ (existing : MonicaReminder) (patch : UpdateReminderPayload)
        (p : CreateReminderPayload),
      mergeReminderPayload existing patch = .ok p →
        (patch.description = none → p.description = existing.description) ∧
        (∀ d, patch.description = some d → p.description = d)) ∧
    (∀ (existing : MonicaTask) (patch : UpdateTaskPayload) (p : CreateTaskPayload),
      mergeTaskPayload existing patch = .ok p →
        (patch.description = some none → p.description = existing.description) ∧
        (patch.completedAt = some none → p.completedAt = existing.completed_at)) ∧
    (∀ (existing : MonicaReminder) (patch : UpdateReminderPayload)
        (p : CreateReminderPayload),
      mergeReminderPayload existing patch = .ok p →
        patch.frequencyNumber = some none →
          p.frequencyNumber = existing.frequency_number) ∧
    (mergeCallPayload ⟨1, some "2024-01-01", some "hi", ⟨7, false⟩⟩ ⟨none, none, some none⟩ =
      .ok ⟨7, "2024-01-01", none⟩ ∧
     buildCallRequestBody ⟨7, "2024-01-01", none⟩ = ⟨7, "2024-01-01", none⟩) := by
  refine ⟨?_, ?_, ?_, ?_, rfl, rfl⟩
  · intro existing patch p h
    simp only [mergeCallPayload] at h
    split at h
    · exact absurd h (by simp)
    · split at h
      · exact absurd h (by simp)
      · obtain rfl := (Except.ok.injEq _ _).mp h
        constructor
        · intro hc; simp [hc]
        · intro c hc; simp [hc]
  · intro existing patch p h
    simp only [mergeReminderPayload] at h
    split at h
    · exact absurd h (by simp)
    · split at h
      · exact absurd h (by simp)
      · obtain rfl := (Except.ok.injEq _ _).mp h
        constructor
        · intro hc; simp [hc]
        · intro d hc; simp [hc]
  · intro existing patch p h
    simp only [mergeTaskPayload] at h
    split at h
    · exact absurd h (by simp)
    · split at h
      · exact absurd h (by simp)
      · obtain rfl := (Except.ok.injEq _ _).mp h
        constructor
        · intro hc; simp [hc]
        · intro hc; simp [hc]
  · intro existing patch p h hc
    simp only [mergeReminderPayload] at h
    split at h
    · exact absurd h (by simp)
    · split at h
      · exact absurd h (by simp)
      · obtain rfl := (Except.ok.injEq _ _).mp h
        simp [hc]

/-- Witness for C1 (amended) at concrete records: absent leaves, `null`
clears for the call's `content`; `null` behaves like absent for the task's
`description`. -/
theorem merge_null_vs_absent_witness :
    ((mergeCallPayload ⟨1, some "2024-01-01", some "hi", ⟨7, false⟩⟩ ⟨none, none, none⟩ =
        .ok ⟨7, "2024-01-01", some "hi"⟩) ∧
      ((⟨7, "2024-01-01", some "hi"⟩ : CreateCallPayload).content = some "hi")) ∧
    ((mergeTaskPayload ⟨1, "A", some "B", false, none, some ⟨7, false⟩⟩
        ⟨none, some none, none, none, none⟩ =
        .ok ⟨"A", some "B", some .open_, none, 7⟩) ∧
      ((⟨"A", some "B", some .open_, none, 7⟩ : CreateTaskPayload).description = some "B")) :=
  ⟨⟨rfl,
    (merge_null_vs_absent.1 ⟨1, some "2024-01-01", some "hi", ⟨7, false⟩⟩ ⟨none, none, none⟩
        ⟨7, "2024-01-01", some "hi"⟩ rfl).1 rfl⟩,
   ⟨rfl,
    (merge_null_vs_absent.2.2.1 ⟨1, "A", some "B", false, none, some ⟨7, false⟩⟩
        ⟨none, some none, none, none, none⟩
        ⟨"A", some "B", some .open_, none, 7⟩ rfl).1 rfl⟩⟩

/-- C5 counterexample: a field absent from the patch is not always carried
forward *unchanged*.  With an empty patch over a call whose record has
`called_at = "2024-01-01T10:00:00Z"`, the merged `calledAt` is the
truncation `"2024-01-01"` (`slice(0, 10)`), not the existing value. -/
theorem mergeCallPayload_truncates_called_at :
    mergeCallPayload ⟨1, some "2024-01-01T10:00:00Z", some "hi", ⟨7, false⟩⟩
        ⟨none, none, none⟩ =
      .ok ⟨7, "2024-01-01", some "hi"⟩ ∧
    "2024-01-01" ≠ "2024-01-01T10:00:00Z" :=
  ⟨rfl, by decide⟩

/-- C5 (amended): for every merge-before-update kind (call, reminder, task,
note), every field absent from the patch is carried forward from the
existing record — unchanged, except that the call's `calledAt` and the
reminder's `nextExpectedDate` are truncated to the first ten characters
(the date part) of the stored timestamp.  The spec's example stands:
existing `{title: "A", description: "B"}` with patch `{title: "C"}` merges
to a body whose description is `"B"` unchanged. -/
theorem merge_absent_fields_carried_forward :
    (∀ (existing : MonicaCall) (patch : UpdateCallPayload) (p : CreateCallPayload),
      mergeCallPayload existing patch = .ok p →
        (patch.contactId = none → p.contactId = existing.contact.id) ∧
        (patch.content = none → p.content = existing.content) ∧
        (∀ s, patch.calledAt = none → existing.called_at = some s → s ≠ "" →
          p.calledAt = s.take 10)) ∧
    (∀ (existing : MonicaReminder) (patch : UpdateReminderPayload)
        (p : CreateReminderPayload),
      mergeReminderPayload existing patch = .ok p →
        (patch.title = none → p.title = existing.title) ∧
        (patch.description = none → p.description = existing.description) ∧
        (patch.frequencyType = none → p.frequencyType = existing.frequency_type) ∧
        (patch.frequencyNumber = none → p.frequencyNumber = existing.frequency_number) ∧
        (patch.contactId = none → p.contactId = existing.contact.id) ∧
        (∀ s, patch.nextExpectedDate = none → existing.next_expected_date = some s →
          s ≠ "" → p.nextExpectedDate = s.take 10)) ∧
    (∀ (existing : MonicaTask) (patch : UpdateTaskPayload) (p : CreateTaskPayload),
      mergeTaskPayload existing patch = .ok p →
        (patch.title = none → p.title = existing.title) ∧
        (patch.description = none → p.description = existing.description) ∧
        (patch.status = none →
          p.status = some (if existing.completed then .completed else .open_)) ∧
        (patch.completedAt = none → p.completedAt = existing.completed_at) ∧
        (patch.contactId = none → ∀ c, existing.contact = some c → p.contactId = c.id)) ∧
    (∀ (existing : MonicaNote) (patch : UpdateNotePayload) (b : NoteRequestBody),
      buildNoteRequestBody existing patch = .ok b →
        (patch.body = none → b.body = existing.body) ∧
        (patch.isFavorited = none →
          b.is_favorited = if existing.is_favorited then 1 else 0) ∧
        (patch.contactId = none → b.contact_id = existing.contact.id)) ∧
    (∀ p, mergeTaskPayload ⟨1, "A", some "B", false, none, some ⟨7, false⟩⟩
        ⟨some "C", none, none, none, none⟩ = .ok p →
      p.title = "C" ∧ p.description = some "B" ∧
      (buildTaskRequestBody p).description = some "B") := by
  refine ⟨?_, ?_, ?_, ?_, ?_⟩
  · intro existing patch p h
    simp only [mergeCallPayload] at h
    split at h
    · exact absurd h (by simp)
    · rename_i ca hca
      split at h
      · exact absurd h (by simp)
      · obtain rfl := (Except.ok.injEq _ _).mp h
        refine ⟨fun hc => by simp [hc], fun hc => by simp [hc], ?_⟩
        intro s h1 h2 h3
        rw [h1] at hca
        simp only [h2] at hca
        rw [if_neg h3] at hca
        simpa using hca.symm
  · intro existing patch p h
    simp only [mergeReminderPayload] at h
    split at h
    · exact absurd h (by simp)
    · rename_i d hd
      split at h
      · exact absurd h (by simp)
      · obtain rfl := (Except.ok.injEq _ _).mp h
        refine ⟨fun hc => by simp [hc], fun hc => by simp [hc], fun hc => by simp [hc],
          fun hc => by simp [hc], fun hc => by simp [hc], ?_⟩
        intro s h1 h2 h3
        rw [h1] at hd
        simp only [h2] at hd
        rw [if_neg h3] at hd
        simpa using hd.symm
  · intro existing patch p h
    simp only [mergeTaskPayload] at h
    split at h
    · exact absurd h (by simp)
    · rename_i cid hcid
      split at h
      · exact absurd h (by simp)
      · obtain rfl := (Except.ok.injEq _ _).mp h
        refine ⟨fun hc => by simp [hc], fun hc => by simp [hc], fun hc => by simp [hc],
          fun hc => by simp [hc], ?_⟩
        intro h1 c h2
        rw [h1] at hcid
        simp only [h2] at hcid
        simpa using hcid.symm
  · intro existing patch b h
    simp only [buildNoteRequestBody] at h
    split at h
    · exact absurd h (by simp)
    · obtain rfl := (Except.ok.injEq _ _).mp h
      exact ⟨fun hc => by simp [hc], fun hc => by simp [hc], fun hc => by simp [hc]⟩
  · intro p h
    obtain rfl := (Except.ok.injEq _ _).mp h
    exact ⟨rfl, rfl, rfl⟩

/-- Witness for C5 at concrete records: the reminder carries its absent
description forward, and the spec's task example carries description `"B"`
into the write body. -/
theorem merge_absent_fields_carried_forward_witness :
    ((mergeReminderPayload ⟨4, "T", some "D", .week, some 2, some "2024-05-05", ⟨7, false⟩⟩
        ⟨some "U", none, none, none, none, none⟩ =
        .ok ⟨"U", some "D", "2024-05-05", .week, some 2, 7⟩) ∧
      ((⟨"U", some "D", "2024-05-05", .week, some 2, 7⟩ :
          CreateReminderPayload).description = some "D")) ∧
    ((⟨"C", some "B", some .open_, none, 7⟩ : CreateTaskPayload).title = "C" ∧
      (⟨"C", some "B", some .open_, none, 7⟩ : CreateTaskPayload).description = some "B" ∧
      (buildTaskRequestBody ⟨"C", some "B", some .open_, none, 7⟩).description = some "B") :=
  ⟨⟨rfl,
    (merge_absent_fields_carried_forward.2.1
        ⟨4, "T", some "D", .week, some 2, some "2024-05-05", ⟨7, false⟩⟩
        ⟨some "U", none, none, none, none, none⟩
        ⟨"U", some "D", "2024-05-05", .week, some 2, 7⟩ rfl).2.1 rfl⟩,
   merge_absent_fields_carried_forward.2.2.2.2 ⟨"C", some "B", some .open_, none, 7⟩ rfl⟩

end Monica.Client

namespace Monica

/-- C6 counterexample: with neither an identifier, an ISO code nor a name,
the country lookup does not raise a validation error — it returns `null`
("intentionally absent"), and no page is requested. -/
theorem resolveCountryId_no_input_returns_null :
    resolveCountryId countryFetch 5 ⟨none, none, none⟩ = (.ok none, []) ∧
    ResolveOutcome.isError (resolveCountryId countryFetch 5 ⟨none, none, none⟩).1 = false :=
  ⟨rfl, rfl⟩

/-- C6 (amended): with neither an identifier nor a name supplied, the *two*
optional lookups — gender and country — return an intentionally absent
result (`undefined` resp. `null`) with no error and no page request, while
the three required lookups (contact-field type, activity type, relationship
type) raise their validation error before any page request. -/
theorem resolver_no_input_behaviour :
    (∀ (fetch : Nat → Page MonicaGender) (fuel : Nat),
      resolveGenderId fetch fuel none none = (.ok none, [])) ∧
    (∀ (fetch : Nat → Page (String × MonicaCountry)) (fuel : Nat),
      resolveCountryId fetch fuel ⟨none, none, none⟩ = (.ok none, [])) ∧
    (∀ (fetch : Nat → Page MonicaContactFieldType) (fuel : Nat),
      resolveContactFieldTypeId fetch fuel none none =
        (.error "Provide contactFieldTypeId or contactFieldTypeName.", [])) ∧
    (∀ (fetch : Nat → Page MonicaActivityType) (fuel : Nat),
      resolveActivityTypeId fetch fuel none none =
        (.error (.validation "Provide activityTypeId or activityTypeName."), [])) ∧
    (∀ (fetch : Nat → Page MonicaRelationshipType) (fuel : Nat),
      resolveRelationshipTypeId fetch fuel none none =
        (.error "Provide relationshipTypeId or relationshipTypeName.", [])) :=
  ⟨fun _ _ => rfl, fun _ _ => rfl, fun _ _ => rfl, fun _ _ => rfl, fun _ _ => rfl⟩

/-- Membership after a suggestion insertion: the element was already there
or is the inserted name. -/
theorem mem_insertSuggestion (acc : List String) (n s : String)
    (h : s ∈ insertSuggestion acc n) : s ∈ acc ∨ s = n := by
  unfold insertSuggestion at h
  split at h
  · exact Or.inl h
  · rcases List.mem_append.mp h with h | h
    · exact Or.inl h
    · exact Or.inr (List.mem_singleton.mp h)

/-- Every element of the accumulator after one page's collection pass was
already accumulated or is the name of a near-matching entry of the page. -/
theorem mem_collectSuggestions (target : String) (entries : List MonicaActivityType) :
    ∀ (acc : List String) (s : String), s ∈ collectSuggestions target entries acc →
      s ∈ acc ∨ ∃ t ∈ entries, t.name = s ∧ isNearMatch target t = true := by
  induction entries with
  | nil => exact fun acc s h => Or.inl h
  | cons t ts ih =>
    intro acc s h
    have h' : s ∈ collectSuggestions target ts
        (if isNearMatch target t then insertSuggestion acc t.name else acc) := h
    rcases ih _ s h' with hmem | ⟨u, hu, hname, hnear⟩
    · by_cases hnm : isNearMatch target t = true
      · rw [if_pos hnm] at hmem
        rcases mem_insertSuggestion acc t.name s hmem with hmem | rfl
        · exact Or.inl hmem
        · exact Or.inr ⟨t, List.mem_cons_self t ts, rfl, hnm⟩
      · rw [if_neg hnm] at hmem
        exact Or.inl hmem
    · exact Or.inr ⟨u, List.mem_cons_of_mem t hu, hname, hnear⟩

/-- Accumulator soundness of the activity scan: if every accumulated name is
the name of a near-matching entry of some page, the same holds for the final
accumulator. -/
theorem activityScan_acc_sound (fetch : Nat → Page MonicaActivityType) (target : String) :
    ∀ (fuel page : Nat) (acc : List String),
      (∀ s ∈ acc, ∃ p, ∃ t ∈ (fetch p).data, t.name = s ∧ isNearMatch target t = true) →
      ∀ s ∈ (activityScan fetch target fuel page acc).2.1,
        ∃ p, ∃ t ∈ (fetch p).data, t.name = s ∧ isNearMatch target t = true := by
  intro fuel
  induction fuel with
  | zero => exact fun page acc hacc s hs => hacc s hs
  | succ fuel ih =>
    intro page acc hacc s hs
    have hacc' : ∀ s ∈ collectSuggestions target (fetch page).data acc,
        ∃ p, ∃ t ∈ (fetch p).data, t.name = s ∧ isNearMatch target t = true := by
      intro s' hs'
      rcases mem_collectSuggestions target (fetch page).data acc s' hs'
        with hmem | ⟨t, ht, hname, hnear⟩
      · exact hacc s' hmem
      · exact ⟨page, t, ht, hname, hnear⟩
    simp only [activityScan] at hs
    split at hs
    · exact hacc s hs
    · split at hs
      · exact hacc' s hs
      · exact ih (page + 1) _ hacc' s hs

/-- C2 counterexample: resolving the typo `"Meetng"` against a catalog
holding `Meeting` and `Meal` produces a resolution error with *no*
suggestions: `"meetng"` and `"meeting"` are not substrings of each other in
either direction, so the near-match test fails and `"Meeting"` is not
suggested, contrary to the claim's scenario. -/
theorem resolveActivityTypeId_meetng_no_suggestions :
    resolveActivityTypeId meetCatalogFetch 5 none (some "Meetng") =
      (.error (.resolution "Meetng" []), [1]) ∧
    "Meeting" ∉ ([] : List String) :=
  ⟨rfl, by decide⟩

/-- C2 (amended): when the activity-type scan exhausts all pages without an
exact match it raises a resolution error naming the attempted target and
carrying as suggestions at most five names, each of which is a near-match
(substring containment in either direction, case-insensitive) observed on
some scanned page.  The spec's concrete scenario is corrected: `"Meetng"`
is not in a substring relation with `"Meeting"`, so it yields no
suggestions (see the counterexample); a prefix such as `"Meet"` does yield
the suggestion `"Meeting"` while `"Meal"` is not suggested. -/
theorem resolveActivityTypeId_suggestions :
    (∀ (fetch : Nat → Page MonicaActivityType) (fuel : Nat) (name tgt : String)
        (sugg : List String) (trace : List Nat),
      resolveActivityTypeId fetch fuel none (some name) =
        (.error (.resolution tgt sugg), trace) →
      tgt = name ∧ sugg.length ≤ 5 ∧
      ∀ s ∈ sugg, ∃ p, ∃ t ∈ (fetch p).data, t.name = s ∧
        isNearMatch (normalizeLookupValue name) t = true) ∧
    (resolveActivityTypeId meetCatalogFetch 5 none (some "Meet") =
      (.error (.resolution "Meet" ["Meeting"]), [1]) ∧
     "Meeting" ∈ ["Meeting"] ∧ "Meal" ∉ (["Meeting"] : List String)) := by
  constructor
  · intro fetch fuel name tgt sugg trace h
    by_cases hn : name = ""
    · simp [resolveActivityTypeId, jsTruthyStr, hn] at h
    · rcases hscan : activityScan fetch (normalizeLookupValue name) fuel 1 []
        with ⟨res, acc, trace'⟩
      have hsound := activityScan_acc_sound fetch (normalizeLookupValue name) fuel 1 []
        (by simp)
      rw [hscan] at hsound
      cases res <;> simp [resolveActivityTypeId, jsTruthyStr, hn, hscan] at h
      obtain ⟨⟨htgt, hsugg⟩, _⟩ := h
      subst htgt
      refine ⟨rfl, ?_, ?_⟩
      · rw [← hsugg]
        exact List.length_take_le 5 acc
      · intro s hs
        rw [← hsugg] at hs
        exact hsound s (List.take_subset 5 acc hs)
  · exact ⟨rfl, by decide, by decide⟩

/-- Witness for C2 (amended): the suggestion soundness applied to the
`"Meet"` scenario. -/
theorem resolveActivityTypeId_suggestions_witness :
    ("Meet" = "Meet" ∧ (["Meeting"] : List String).length ≤ 5 ∧
      ∀ s ∈ (["Meeting"] : List String), ∃ p, ∃ t ∈ (meetCatalogFetch p).data,
        t.name = s ∧ isNearMatch (normalizeLookupValue "Meet") t = true) :=
  resolveActivityTypeId_suggestions.1 meetCatalogFetch 5 "Meet" "Meet" ["Meeting"] [1] rfl

/-- C8: country name resolution.  A truthy caller-supplied identifier
short-circuits with no page request; the per-entry match succeeds exactly
when the entry's ISO code or name equals (case-insensitively) a supplied
non-empty target; when the value sequence of the object-keyed first page
has a first matching entry, its identifier is returned after requesting
only page 1; and looking up ISO code `"FR"` against the stored entry
`{iso: "fr", name: "France"}` returns that entry's identifier. -/
theorem resolveCountryId_matching :
    (∀ (fetch : Nat → Page (String × MonicaCountry)) (fuel : Nat)
        (options : CountryLookupOptions) (cid : String),
      options.countryId = some cid → cid ≠ "" →
        resolveCountryId fetch fuel options = (.ok (some cid), [])) ∧
    (∀ (targetIso targetName : Option String) (c : MonicaCountry),
      countryMatches targetIso targetName c = true ↔
        ((∃ t, targetIso = some t ∧ t ≠ "" ∧ jsToLower c.iso = t) ∨
         (∃ t, targetName = some t ∧ t ≠ "" ∧ jsToLower c.name = t))) ∧
    (∀ (fetch : Nat → Page (String × MonicaCountry)) (fuel : Nat)
        (options : CountryLookupOptions) (c : MonicaCountry),
      jsTruthyStr options.countryId = false →
      jsTruthyStr (options.countryIso.map jsTrim) = true →
      (((fetch 1).data).map Prod.snd).find?
          (countryMatches ((options.countryIso.map jsTrim).map jsToLower)
            ((options.countryName.map jsTrim).map jsToLower)) = some c →
        resolveCountryId fetch (fuel + 1) options = (.ok (some c.id), [1])) ∧
    (resolveCountryId countryFetch 5 ⟨none, some "FR", none⟩ = (.ok (some "F1"), [1])) := by
  refine ⟨?_, ?_, ?_, rfl⟩
  · intro fetch fuel options cid hid hne
    simp [resolveCountryId, jsTruthyStr, hid, hne]
  · intro targetIso targetName c
    cases targetIso <;> cases targetName <;>
      simp [countryMatches, jsToLower]
  · intro fetch fuel options c hid hiso hfind
    have hfound := scanLoop_found
      (fun p => { data := ((fetch p).data).map Prod.snd, meta := (fetch p).meta })
      (countryMatches ((options.countryIso.map jsTrim).map jsToLower)
        ((options.countryName.map jsTrim).map jsToLower)) fuel 1 c hfind
    simp only [Option.map_map] at hfound
    simp [resolveCountryId, hid, hiso, hfound]

/-- Witness for C8 at concrete inputs: the identifier short-circuit and the
page-1 first-match return. -/
theorem resolveCountryId_matching_witness :
    resolveCountryId countryFetch 5 ⟨some "XX", some "FR", none⟩ = (.ok (some "XX"), []) ∧
    resolveCountryId countryFetch 5 ⟨none, some "FR", none⟩ = (.ok (some "F1"), [1]) :=
  ⟨resolveCountryId_matching.1 countryFetch 5 ⟨some "XX", some "FR", none⟩ "XX" rfl
      (by decide),
   resolveCountryId_matching.2.2.1 countryFetch 4 ⟨none, some "FR", none⟩
      ⟨"F1", "France", "fr"⟩ rfl rfl rfl⟩

end Monica

namespace Monica.Client

/-- A search response holding one full and one partial contact, with the
backend-reported total of 2. -/
def searchFixturePage : Paginated MonicaContact :=
  { data := [⟨1, false⟩, ⟨2, true⟩], meta := ⟨1, 1, 10, 2⟩ }

/-- The create path is never a `tasks/`-family path: it differs from
`"tasks/" ++ s` for every suffix `s` (the fifth character is `/` vs `s`). -/
theorem task_create_path_ne (s : String) : "task/" ≠ "tasks/" ++ s := by
  intro h
  have h4 := congrArg (fun str => str.data.get? 4) h
  simp only [String.data_append] at h4
  simp at h4

/-- C9: the task-create POST goes to the singular path `task/` with a
trailing slash, while get, update, delete and the global list use the
`tasks` path family; the create path coincides with none of them. -/
theorem task_request_paths :
    (∀ p : CreateTaskPayload, (createTaskRequest p).1 = ⟨"POST", "task/"⟩) ∧
    (∀ taskId : Nat, (getTaskRequest taskId).method = "GET" ∧
      (getTaskRequest taskId).path = "tasks/" ++ toString taskId) ∧
    (∀ taskId : Nat, (deleteTaskRequest taskId).method = "DELETE" ∧
      (deleteTaskRequest taskId).path = "tasks/" ++ toString taskId) ∧
    (∀ (taskId : Nat) (existing : MonicaTask) (patch : UpdateTaskPayload),
      ∀ r ∈ (updateTask taskId existing patch).2, r.path = (getTaskRequest taskId).path) ∧
    listTasksRequestPath none = "tasks" ∧
    (∀ (p : CreateTaskPayload) (taskId : Nat),
      (createTaskRequest p).1.path ≠ (getTaskRequest taskId).path) ∧
    (∀ p : CreateTaskPayload, (createTaskRequest p).1.path ≠ listTasksRequestPath none) := by
  refine ⟨fun _ => rfl, ?_, ?_, ?_, rfl, ?_, ?_⟩
  · intro taskId
    refine ⟨rfl, ?_⟩
    show ("tasks/" ++ toString taskId) ++ "" = "tasks/" ++ toString taskId
    rw [String.append_empty]
  · intro taskId
    refine ⟨rfl, ?_⟩
    show ("tasks/" ++ toString taskId) ++ "" = "tasks/" ++ toString taskId
    rw [String.append_empty]
  · intro taskId existing patch r hr
    cases hm : mergeTaskPayload existing patch <;>
      simp [updateTask, hm] at hr <;>
      rcases hr with rfl | rfl <;> rfl
  · intro p taskId
    show "task/" ≠ ("tasks/" ++ toString taskId) ++ ""
    rw [String.append_assoc]
    exact task_create_path_ne (toString taskId ++ "")
  · intro p
    intro h
    have h4 := congrArg (fun str => str.data.get? 4) h
    simp [createTaskRequest, listTasksRequestPath, jsTruthyNat] at h4

/-- Witness for C9 at concrete inputs: the update PUT hits the `tasks/3`
path of the get request, and the create path `task/` equals neither
`tasks/3` nor the global `tasks` path. -/
theorem task_request_paths_witness :
    (createTaskRequest ⟨"T", none, none, none, 7⟩).1 = ⟨"POST", "task/"⟩ ∧
    (⟨"PUT", "tasks/3"⟩ : HttpRequest).path = (getTaskRequest 3).path ∧
    (createTaskRequest ⟨"T", none, none, none, 7⟩).1.path ≠ (getTaskRequest 3).path ∧
    (createTaskRequest ⟨"T", none, none, none, 7⟩).1.path ≠ listTasksRequestPath none :=
  ⟨task_request_paths.1 ⟨"T", none, none, none, 7⟩,
   task_request_paths.2.2.2.1 3 ⟨1, "A", some "B", false, none, some ⟨7, false⟩⟩
      ⟨none, none, none, none, none⟩ ⟨"PUT", "tasks/3"⟩ (by decide),
   task_request_paths.2.2.2.2.2.1 ⟨"T", none, none, none, 7⟩ 3,
   task_request_paths.2.2.2.2.2.2 ⟨"T", none, none, none, 7⟩⟩

/-- C10: when a contact search is invoked with `includePartial === false`,
the returned page's data contains no partial contact and is a subset of the
backend's data, while the pagination metadata is returned exactly as the
backend reported it (so `total` may exceed the number of returned rows). -/
theorem searchContacts_filters_partials_keeps_meta :
    ∀ (options : SearchContactsOptions) (response : Paginated MonicaContact),
      options.includePartial = some false →
        ((searchContacts options response).data.all fun c => !c.isPartial) = true ∧
        (searchContacts options response).meta = response.meta ∧
        ∀ c ∈ (searchContacts options response).data, c ∈ response.data := by
  intro options response h
  refine ⟨?_, by simp [searchContacts, h], ?_⟩
  · rw [List.all_eq_true]
    intro c hc
    have hc' : c ∈ response.data.filter (fun c => !c.isPartial) := by
      simpa [searchContacts, h] using hc
    simpa using (List.mem_filter.mp hc').2
  · intro c hc
    have hc' : c ∈ response.data.filter (fun c => !c.isPartial) := by
      simpa [searchContacts, h] using hc
    exact (List.mem_filter.mp hc').1

/-- Witness for C10: filtering the fixture page drops the partial contact,
keeps the reported metadata, and leaves `total = 2` exceeding the single
returned row. -/
theorem searchContacts_filters_partials_keeps_meta_witness :
    ((searchContacts ⟨"q", none, none, some false⟩ searchFixturePage).data.all
        fun c => !c.isPartial) = true ∧
    (searchContacts ⟨"q", none, none, some false⟩ searchFixturePage).meta =
      searchFixturePage.meta ∧
    (∀ c ∈ (searchContacts ⟨"q", none, none, some false⟩ searchFixturePage).data,
      c ∈ searchFixturePage.data) ∧
    (searchContacts ⟨"q", none, none, some false⟩ searchFixturePage).data.length <
      searchFixturePage.meta.total := by
  have h := searchContacts_filters_partials_keeps_meta ⟨"q", none, none, some false⟩
    searchFixturePage rfl
  exact ⟨h.1, h.2.1, h.2.2, by decide⟩

mutual

/-- After scrubbing, every token-named key at every depth holds the marker. -/
theorem scrub_allRedacted : ∀ v : JVal, allTokensRedacted (scrubSecrets v) = true
  | .null => rfl
  | .bool _ => rfl
  | .num _ => rfl
  | .str _ => rfl
  | .arr elems => by
    simpa [scrubSecrets, allTokensRedacted] using scrubList_allRedacted elems
  | .obj entries => by
    simpa [scrubSecrets, allTokensRedacted] using scrubEntries_allRedacted entries

theorem scrubList_allRedacted : ∀ vs : List JVal,
    allTokensRedactedList (scrubList vs) = true
  | [] => rfl
  | v :: vs => by
    simp [scrubList, allTokensRedactedList, scrub_allRedacted v, scrubList_allRedacted vs]

theorem scrubEntries_allRedacted : ∀ es : List (String × JVal),
    allTokensRedactedEntries (scrubEntries es) = true
  | [] => rfl
  | (k, v) :: es => by
    by_cases hk : isTokenKey k = true
    · rw [scrubEntries, if_pos hk, allTokensRedactedEntries]
      simp [hk, isRedactedStr, redactedMarker, scrubEntries_allRedacted es]
    · rw [scrubEntries, if_neg hk, allTokensRedactedEntries]
      simp [hk, scrub_allRedacted v, scrubEntries_allRedacted es]

end

mutual

/-- Scrubbing does not look at token-keyed values: erasing them first
changes nothing. -/
theorem scrub_erase : ∀ v : JVal, scrubSecrets (eraseTokens v) = scrubSecrets v
  | .null => rfl
  | .bool _ => rfl
  | .num _ => rfl
  | .str _ => rfl
  | .arr elems => by simp [eraseTokens, scrubSecrets, scrubList_erase elems]
  | .obj entries => by simp [eraseTokens, scrubSecrets, scrubEntries_erase entries]

theorem scrubList_erase : ∀ vs : List JVal, scrubList (eraseList vs) = scrubList vs
  | [] => rfl
  | v :: vs => by simp [eraseList, scrubList, scrub_erase v, scrubList_erase vs]

theorem scrubEntries_erase : ∀ es : List (String × JVal),
    scrubEntries (eraseEntries es) = scrubEntries es
  | [] => rfl
  | (k, v) :: es => by
    by_cases hk : isTokenKey k = true
    · rw [eraseEntries, if_pos hk, scrubEntries, if_pos hk, scrubEntries, if_pos hk,
        scrubEntries_erase es]
    · rw [eraseEntries, if_neg hk, scrubEntries, if_neg hk, scrubEntries, if_neg hk,
        scrubEntries_erase es, scrub_erase v]

end

/-- C7: token redaction is total.  In every scrubbed value, every key whose
name contains `token` (case-insensitively), at any nesting depth through
objects and arrays, holds exactly the redaction marker; and scrubbing is
insensitive to token-keyed values — two inputs that agree everywhere except
at token-named keys (their erasures coincide) scrub to identical outputs,
so no token value can leak into the logged representation. -/
theorem scrubSecrets_total_redaction :
    (∀ v : JVal, allTokensRedacted (scrubSecrets v) = true) ∧
    (∀ a b : JVal, eraseTokens a = eraseTokens b → scrubSecrets a = scrubSecrets b) :=
  ⟨scrub_allRedacted, fun a b h => by rw [← scrub_erase a, ← scrub_erase b, h]⟩

/-- Witness for C7: a nested body whose `apiToken` and `X-User-Token` keys
come out redacted, and two bodies differing only in a token value scrub to
the same output. -/
theorem scrubSecrets_total_redaction_witness :
    allTokensRedacted (scrubSecrets (.obj [("apiToken", .str "s3cret"),
      ("data", .arr [.obj [("X-User-Token", .str "u"), ("note", .str "ok")]])])) = true ∧
    eraseTokens (.obj [("apiToken", .str "AAA")]) =
      eraseTokens (.obj [("apiToken", .str "BBB")]) ∧
    scrubSecrets (.obj [("apiToken", .str "AAA")]) =
      scrubSecrets (.obj [("apiToken", .str "BBB")]) :=
  ⟨scrubSecrets_total_redaction.1 _, rfl, scrubSecrets_total_redaction.2 _ _ rfl⟩

end Monica.Client
